import Mathlib

/-!
Verification of the Section 4.6 astrophotography calibration pipeline
(`src/Lab_1/Misha_Work/section_4.6.ipynb`).

The notebook loads FITS dark frames and per-channel science ("pretty")
frames, median-stacks each sequence, subtracts the median dark from each
median channel, registers the blue and red channels against the visible
channel with `astroalign.register`, and writes three FITS files.

Embedding choices:
  - pixel values are modelled as exact rationals (the FITS data are
    16-bit integers; no claim hinges on float rounding);
  - a 2-D numpy array is a shape plus a pixel lookup function (`Arr2`);
  - the file system is a partial map from path strings to FITS files;
    a missing entry models a missing or unreadable file;
  - fallible numpy / astropy operations return `Except PipelineError`,
    using the error taxonomy of the specification.
-/

/-- Pixel intensities, modelled as exact rationals. -/
abbrev Px := ℚ

/-- A FITS header: a list of key/value cards.  No claim inspects header
contents, only their presence in the loader's output pairs. -/
abbrev Header := List (String × String)

/-- A 2-D numpy array: a shape (`rows × cols`) together with a total pixel
lookup function; only indices below the shape are meaningful. -/
structure Arr2 where
  rows : Nat
  cols : Nat
  pix : Nat → Nat → Px

instance : Inhabited Arr2 := ⟨⟨0, 0, fun _ _ => 0⟩⟩

/-- The array of shape `r × c` holding `v` at every pixel
(e.g. `np.full((r, c), v)`). -/
def constArr (r c : Nat) (v : Px) : Arr2 := ⟨r, c, fun _ _ => v⟩

/-- Element-wise equality of two arrays: equal shapes and equal pixels on
every in-range index (numpy `==` + `all`). -/
def Arr2.eqv (a b : Arr2) : Prop :=
  a.rows = b.rows ∧ a.cols = b.cols ∧
    ∀ r < a.rows, ∀ c < a.cols, a.pix r c = b.pix r c

instance (a b : Arr2) : Decidable (a.eqv b) := by
  unfold Arr2.eqv; infer_instance

/-- Error taxonomy of the specification (section 7).  `fileAccessError`
carries the offending path. -/
inductive PipelineError where
  | fileAccessError (path : String)
  | shapeMismatchError
  | alignmentError
deriving DecidableEq

/-- Insertion of a value into a sorted list of rationals; helper for the
sort underlying `np.median`. -/
def insertSorted (x : Px) : List Px → List Px
  | [] => [x]
  | y :: ys => if x ≤ y then x :: y :: ys else y :: insertSorted x ys

/-- Sorting a list of rationals in nondecreasing order; `np.median` sorts
the stacked values along the reduction axis. -/
def sortList : List Px → List Px
  | [] => []
  | x :: xs => insertSorted x (sortList xs)

/-- The numpy median of a list of values: sort, then take the middle
element (odd length) or the mean of the two middle elements (even
length). -/
def npMedian (l : List Px) : Px :=
  let s := sortList l
  let n := s.length
  if n % 2 = 1 then s.getD (n / 2) 0
  else (s.getD (n / 2 - 1) 0 + s.getD (n / 2) 0) / 2

/-- Source `calculate_median(data_list)`: `np.median(np.array(data_list),
axis=0)`.  `np.array` raises a `ValueError` (spec: ShapeMismatchError)
when the 2-D arrays do not all share one shape; otherwise the result is
the per-pixel median of the stack.  For the empty list `np.median`
returns NaN with a warning; that out-of-scope case is modelled as a
degenerate 0×0 array. -/
def calculate_median (data_list : List Arr2) : Except PipelineError Arr2 :=
  match data_list with
  | [] => .ok ⟨0, 0, fun _ _ => 0⟩
  | a :: rest =>
    if ∀ b ∈ rest, b.rows = a.rows ∧ b.cols = a.cols then
      .ok ⟨a.rows, a.cols, fun r c =>
        npMedian ((a :: rest).map (fun img => img.pix r c))⟩
    else .error .shapeMismatchError

/-- Broadcast of one 2-D dimension against another (numpy semantics):
equal dimensions broadcast to themselves and a dimension of 1 stretches
to match the other; anything else is a broadcast failure. -/
def bcastDim (n m : Nat) : Option Nat :=
  if n = m then some n else if n = 1 then some m else if m = 1 then some n else none

/-- Index into a possibly stretched dimension: a dimension of 1 always
reads its only entry. -/
def bcastIndex (dim i : Nat) : Nat := if dim = 1 then 0 else i

/-- Numpy element-wise subtraction `x - y` with 2-D broadcasting; raises
a `ValueError` (spec: ShapeMismatchError) when the shapes are not
broadcast-compatible. -/
def npSub (x y : Arr2) : Except PipelineError Arr2 :=
  match bcastDim x.rows y.rows, bcastDim x.cols y.cols with
  | some r, some c =>
    .ok ⟨r, c, fun i j =>
      x.pix (bcastIndex x.rows i) (bcastIndex x.cols j) -
        y.pix (bcastIndex y.rows i) (bcastIndex y.cols j)⟩
  | _, _ => .error .shapeMismatchError

/-- Numpy element-wise addition `x + y` with 2-D broadcasting (used to
state the round-trip property `Subtractor(...) + ... == ...`). -/
def npAdd (x y : Arr2) : Except PipelineError Arr2 :=
  match bcastDim x.rows y.rows, bcastDim x.cols y.cols with
  | some r, some c =>
    .ok ⟨r, c, fun i j =>
      x.pix (bcastIndex x.rows i) (bcastIndex x.cols j) +
        y.pix (bcastIndex y.rows i) (bcastIndex y.cols j)⟩
  | _, _ => .error .shapeMismatchError

/-- Source `subtract_median_dark_from_pretty(median_dark, median_pretty)`:
returns `median_pretty - median_dark` — the dark frame is the FIRST
parameter and is subtracted from the second. -/
def subtract_median_dark_from_pretty (median_dark median_pretty : Arr2) :
    Except PipelineError Arr2 :=
  npSub median_pretty median_dark

/-- Addition lifted to fallible arrays, to chain a subtraction result into
a round-trip sum. -/
def exAdd (x y : Except PipelineError Arr2) : Except PipelineError Arr2 := do
  npAdd (← x) (← y)

/-- Element-wise equality between a fallible array and an array: holds
only when the computation succeeded with an `eqv`-equal result. -/
def exEqv (x : Except PipelineError Arr2) (b : Arr2) : Prop :=
  match x with
  | .ok a => a.eqv b
  | .error _ => False

instance (x : Except PipelineError Arr2) (b : Arr2) : Decidable (exEqv x b) := by
  unfold exEqv; cases x <;> infer_instance

/-- A FITS file: one primary header block and one primary 2-D data
array. -/
structure FitsFile where
  header : Header
  data : Arr2

/-- The file system: a partial map from path strings to FITS files; a
path mapped to `none` is missing or unreadable. -/
def FileSystem := String → Option FitsFile

/-- A path template with one `{:08d}` placeholder, split at the
placeholder into the text before and after it. -/
structure Template where
  front : String
  back : String

/-- Left-pads a digit string with zeros to width `w`. -/
def padZeros (s : String) (w : Nat) : String :=
  String.mk (List.replicate (w - s.length) '0') ++ s

/-- Python `"{:08d}".format(i)`: the decimal rendering of `i`, zero-padded
to total width 8 (the minus sign of a negative index counts toward the
width, as in Python). -/
def pyFormat08d (i : Int) : String :=
  if i < 0 then "-" ++ padZeros (toString i.natAbs) 7
  else padZeros (toString i.natAbs) 8

/-- Source `file_template.format(i)`: substitute the zero-padded frame
index into the template. -/
def formatPath (t : Template) (i : Int) : String :=
  t.front ++ pyFormat08d i ++ t.back

/-- Python `range(s, e)` over integers: `s, s+1, …, e-1`, empty when
`s ≥ e`. -/
def pyRange (s e : Int) : List Int :=
  (List.range (e - s).toNat).map (fun (k : Nat) => s + (k : Int))

/-- Source `fits.open(file_path)`: yields the file's contents, raising a
`FileNotFoundError`/`OSError` (spec: FileAccessError naming the path)
when the path is missing or unreadable. -/
def fits_open (fs : FileSystem) (path : String) : Except PipelineError FitsFile :=
  match fs path with
  | some f => .ok f
  | none => .error (.fileAccessError path)

/-- Loop body of `read_pretty_images`: for each index in order, open the
file and collect `(header, data)`; a failure anywhere aborts the whole
read with no partial list. -/
def readPrettyLoop (fs : FileSystem) (file_template : Template) :
    List Int → Except PipelineError (List (Header × Arr2))
  | [] => .ok []
  | i :: rest => do
    let hdul ← fits_open fs (formatPath file_template i)
    let tail ← readPrettyLoop fs file_template rest
    .ok ((hdul.header, hdul.data) :: tail)

/-- Source `read_pretty_images(file_template, start_index, end_index)`:
read the science frames for indices `start_index … end_index`
(inclusive), returning the list of `(header, data)` pairs. -/
def read_pretty_images (fs : FileSystem) (file_template : Template)
    (start_index end_index : Int) : Except PipelineError (List (Header × Arr2)) :=
  readPrettyLoop fs file_template (pyRange start_index (end_index + 1))

/-- Loop body of `read_dark_frames`; the source duplicates the body of
`read_pretty_images` verbatim, so this mirrors `readPrettyLoop`. -/
def readDarkLoop (fs : FileSystem) (file_template : Template) :
    List Int → Except PipelineError (List (Header × Arr2))
  | [] => .ok []
  | i :: rest => do
    let hdul ← fits_open fs (formatPath file_template i)
    let tail ← readDarkLoop fs file_template rest
    .ok ((hdul.header, hdul.data) :: tail)

/-- Source `read_dark_frames(file_template, start_index, end_index)`:
read the dark frames for indices `start_index … end_index` (inclusive),
returning the list of `(header, data)` pairs. -/
def read_dark_frames (fs : FileSystem) (file_template : Template)
    (start_index end_index : Int) : Except PipelineError (List (Header × Arr2)) :=
  readDarkLoop fs file_template (pyRange start_index (end_index + 1))

/-- Modelled from the spec: `astroalign.register` is third-party library
code, absent from this repository.  Spec section 4.4 gives its contract —
given a reference array and a target array, fit a transform mapping the
target onto the reference's pixel grid and resample the target, returning
the resampled array and a footprint mask; spec section 8 pins down the
zero-offset case: registering same-shaped frames of one scene returns the
target unchanged with a fully valid (all-ones) mask.  The unpinned
point-source fit for genuinely offset frames is modelled as the failure
the spec names: an AlignmentError. -/
def register (reference target : Arr2) : Except PipelineError (Arr2 × Arr2) :=
  if reference.rows = target.rows ∧ reference.cols = target.cols then
    .ok (target, constArr target.rows target.cols 1)
  else .error .alignmentError

/-- Source template for the dark frames
(`..\FITS_Files\ring_nebula_dark_frame_10_sec.{:08d}.DARK.FIT`). -/
def dark_frame_file_template : Template :=
  ⟨"..\\FITS_Files\\ring_nebula_dark_frame_10_sec.", ".DARK.FIT"⟩

/-- Source template for the red channel frames. -/
def red_file_template : Template :=
  ⟨"..\\FITS_Files\\ring_nebula_for_10_sec_red.", ".FIT"⟩

/-- Source template for the blue channel frames. -/
def blue_file_template : Template :=
  ⟨"..\\FITS_Files\\ring_nebula_for_10_sec_blue.", ".FIT"⟩

/-- Source template for the visible (green) channel frames. -/
def visible_file_template : Template :=
  ⟨"..\\FITS_Files\\ring_nebula_for_10_sec_visible.", ".FIT"⟩

/-- Source `dark_start_index = 4`. -/
def dark_start_index : Int := 4
/-- Source `dark_end_index = 6`. -/
def dark_end_index : Int := 6
/-- Source `pretty_start_index = 0`. -/
def pretty_start_index : Int := 0
/-- Source `pretty_end_index = 2`. -/
def pretty_end_index : Int := 2

/-- Source `dark_frames = read_dark_frames(...)`, as a function of the
file system the run sees. -/
def dark_frames (fs : FileSystem) : Except PipelineError (List (Header × Arr2)) :=
  read_dark_frames fs dark_frame_file_template dark_start_index dark_end_index

/-- Source `pretty_red_images = read_pretty_images(...)`. -/
def pretty_red_images (fs : FileSystem) : Except PipelineError (List (Header × Arr2)) :=
  read_pretty_images fs red_file_template pretty_start_index pretty_end_index

/-- Source `pretty_blue_images = read_pretty_images(...)`. -/
def pretty_blue_images (fs : FileSystem) : Except PipelineError (List (Header × Arr2)) :=
  read_pretty_images fs blue_file_template pretty_start_index pretty_end_index

/-- Source `pretty_visible_images = read_pretty_images(...)`. -/
def pretty_visible_images (fs : FileSystem) : Except PipelineError (List (Header × Arr2)) :=
  read_pretty_images fs visible_file_template pretty_start_index pretty_end_index

/-- Source `dark_data = [data for header, data in dark_frames]`. -/
def dark_data (fs : FileSystem) : Except PipelineError (List Arr2) :=
  (dark_frames fs).map (List.map Prod.snd)

/-- Source `red_data = [data for header, data in pretty_red_images]`. -/
def red_data (fs : FileSystem) : Except PipelineError (List Arr2) :=
  (pretty_red_images fs).map (List.map Prod.snd)

/-- Source `blue_data = [data for header, data in pretty_blue_images]`. -/
def blue_data (fs : FileSystem) : Except PipelineError (List Arr2) :=
  (pretty_blue_images fs).map (List.map Prod.snd)

/-- Source `visible_data = [data for header, data in pretty_visible_images]`. -/
def visible_data (fs : FileSystem) : Except PipelineError (List Arr2) :=
  (pretty_visible_images fs).map (List.map Prod.snd)

/-- Source `median_dark = calculate_median(dark_data)`. -/
def median_dark (fs : FileSystem) : Except PipelineError Arr2 :=
  dark_data fs >>= calculate_median

/-- Source `median_red = calculate_median(red_data)`. -/
def median_red (fs : FileSystem) : Except PipelineError Arr2 :=
  red_data fs >>= calculate_median

/-- Source `median_blue = calculate_median(blue_data)`. -/
def median_blue (fs : FileSystem) : Except PipelineError Arr2 :=
  blue_data fs >>= calculate_median

/-- Source `median_visible = calculate_median(visible_data)`. -/
def median_visible (fs : FileSystem) : Except PipelineError Arr2 :=
  visible_data fs >>= calculate_median

/-- Source `subtracted_red = subtract_median_dark_from_pretty(median_dark,
median_red)`: the median dark is passed first. -/
def subtracted_red (fs : FileSystem) : Except PipelineError Arr2 := do
  subtract_median_dark_from_pretty (← median_dark fs) (← median_red fs)

/-- Source `subtracted_blue = subtract_median_dark_from_pretty(median_dark,
median_blue)`. -/
def subtracted_blue (fs : FileSystem) : Except PipelineError Arr2 := do
  subtract_median_dark_from_pretty (← median_dark fs) (← median_blue fs)

/-- Source `subtracted_visible = subtract_median_dark_from_pretty(median_dark,
median_visible)`. -/
def subtracted_visible (fs : FileSystem) : Except PipelineError Arr2 := do
  subtract_median_dark_from_pretty (← median_dark fs) (← median_visible fs)

/-- Source `calibrated_images = [subtracted_visible, subtracted_blue,
subtracted_red]`. -/
def calibrated_images (fs : FileSystem) : Except PipelineError (List Arr2) := do
  pure [← subtracted_visible fs, ← subtracted_blue fs, ← subtracted_red fs]

/-- Source `aligned_blue, footprint_blue = aa.register(calibrated_images[0],
calibrated_images[1])`. -/
def aligned_blue_fp (fs : FileSystem) : Except PipelineError (Arr2 × Arr2) := do
  let imgs ← calibrated_images fs
  register (imgs.getD 0 default) (imgs.getD 1 default)

/-- Source `aligned_red, footprint_red = aa.register(calibrated_images[0],
calibrated_images[2])`. -/
def aligned_red_fp (fs : FileSystem) : Except PipelineError (Arr2 × Arr2) := do
  let imgs ← calibrated_images fs
  register (imgs.getD 0 default) (imgs.getD 2 default)

/-- The aligned blue array (first component of the register result). -/
def aligned_blue (fs : FileSystem) : Except PipelineError Arr2 :=
  Prod.fst <$> aligned_blue_fp fs

/-- The blue footprint mask (second component of the register result). -/
def footprint_blue (fs : FileSystem) : Except PipelineError Arr2 :=
  Prod.snd <$> aligned_blue_fp fs

/-- The aligned red array (first component of the register result). -/
def aligned_red (fs : FileSystem) : Except PipelineError Arr2 :=
  Prod.fst <$> aligned_red_fp fs

/-- The red footprint mask (second component of the register result). -/
def footprint_red (fs : FileSystem) : Except PipelineError Arr2 :=
  Prod.snd <$> aligned_red_fp fs

/-- Source output stage: the three `writeto` calls, modelled as the list
of `(path, primary array)` pairs written, in program order —
`aligned_blue.fits` from `aligned_blue`, `aligned_red.fits` from
`aligned_red`, and `aligned_green.fits` from `calibrated_images[0]`. -/
def written_files (fs : FileSystem) : Except PipelineError (List (String × Arr2)) := do
  let ab ← aligned_blue fs
  let ar ← aligned_red fs
  let imgs ← calibrated_images fs
  pure [("aligned_blue.fits", ab), ("aligned_red.fits", ar),
    ("aligned_green.fits", imgs.getD 0 default)]

/-! Helper lemmas about the embedding. -/

theorem exceptBind_ok {α β : Type} (a : α) (f : α → Except PipelineError β) :
    (Except.ok a : Except PipelineError α) >>= f = f a := rfl

theorem exceptBind_error {α β : Type} (e : PipelineError)
    (f : α → Except PipelineError β) :
    (Except.error e : Except PipelineError α) >>= f = Except.error e := rfl

theorem exceptMap_ok {α β : Type} (a : α) (f : α → β) :
    (f <$> (Except.ok a : Except PipelineError α)) = Except.ok (f a) := rfl

theorem exceptMap_error {α β : Type} (e : PipelineError) (f : α → β) :
    (f <$> (Except.error e : Except PipelineError α)) = Except.error e := rfl

theorem bcastDim_self (n : Nat) : bcastDim n n = some n := by
  simp [bcastDim]

theorem bcastIndex_of_lt {i n : Nat} (h : i < n) : bcastIndex n i = i := by
  unfold bcastIndex
  split <;> omega

theorem length_insertSorted (x : Px) (l : List Px) :
    (insertSorted x l).length = l.length + 1 := by
  induction l with
  | nil => rfl
  | cons y ys ih =>
    unfold insertSorted
    split <;> simp [ih]

theorem length_sortList (l : List Px) : (sortList l).length = l.length := by
  induction l with
  | nil => rfl
  | cons x xs ih => simp [sortList, length_insertSorted, ih]

theorem mem_insertSorted {y x : Px} {l : List Px} (h : y ∈ insertSorted x l) :
    y = x ∨ y ∈ l := by
  induction l with
  | nil => simpa [insertSorted] using h
  | cons z zs ih =>
    unfold insertSorted at h
    split at h
    · simpa using h
    · rcases List.mem_cons.mp h with h1 | h1
      · exact Or.inr (by simp [h1])
      · rcases ih h1 with h2 | h2
        · exact Or.inl h2
        · exact Or.inr (List.mem_cons_of_mem _ h2)

theorem mem_sortList {y : Px} {l : List Px} (h : y ∈ sortList l) : y ∈ l := by
  induction l with
  | nil => simp [sortList] at h
  | cons x xs ih =>
    unfold sortList at h
    rcases mem_insertSorted h with h1 | h1
    · simp [h1]
    · exact List.mem_cons_of_mem _ (ih h1)

theorem getD_of_all_eq {l : List Px} {v : Px} (hall : ∀ y ∈ l, y = v)
    {i : Nat} (hi : i < l.length) (d : Px) : l.getD i d = v := by
  induction l generalizing i with
  | nil => simp at hi
  | cons x xs ih =>
    cases i with
    | zero => simpa using hall x (by simp)
    | succ j =>
      have : ∀ y ∈ xs, y = v := fun y hy => hall y (List.mem_cons_of_mem _ hy)
      simpa using ih this (by simpa using hi) 

theorem npMedian_all_eq {l : List Px} {v : Px} (hne : l ≠ [])
    (hall : ∀ y ∈ l, y = v) : npMedian l = v := by
  have hsall : ∀ y ∈ sortList l, y = v := fun y hy => hall y (mem_sortList hy)
  have hlen : (sortList l).length = l.length := length_sortList l
  have hpos : 0 < l.length := List.length_pos.mpr hne
  simp only [npMedian]
  split
  · exact getD_of_all_eq hsall (by omega) 0
  · rename_i hodd
    have h2 : 2 ≤ l.length := by
      rcases Nat.lt_or_ge l.length 2 with h | h
      · interval_cases hl : l.length
        all_goals omega
      · exact h
    rw [getD_of_all_eq hsall (by omega) 0, getD_of_all_eq hsall (by omega) 0]
    ring

theorem npMedian_replicate {n : Nat} (hn : 0 < n) (v : Px) :
    npMedian (List.replicate n v) = v := by
  apply npMedian_all_eq
  · cases n with
    | zero => omega
    | succ m => simp
  · exact fun _ hy => List.eq_of_mem_replicate hy

theorem pyRange_length (s e : Int) : (pyRange s e).length = (e - s).toNat := by
  simp [pyRange]

theorem pyRange_get (s e : Int) (k : Nat) (h : k < (pyRange s e).length) :
    (pyRange s e).get ⟨k, h⟩ = s + k := by
  simp only [pyRange, List.get_eq_getElem, List.getElem_map, List.getElem_range]

theorem mem_pyRange {i s e : Int} : i ∈ pyRange s e ↔ s ≤ i ∧ i < e := by
  simp only [pyRange, List.mem_map, List.mem_range]
  constructor
  · rintro ⟨k, hk, rfl⟩
    omega
  · rintro ⟨h1, h2⟩
    exact ⟨(i - s).toNat, by omega, by omega⟩

theorem readPrettyLoop_ok_spec (fs : FileSystem) (t : Template) :
    ∀ (idxs : List Int) (l : List (Header × Arr2)),
      readPrettyLoop fs t idxs = .ok l →
      l.length = idxs.length ∧
        ∀ k (hk : k < idxs.length), ∃ f,
          fs (formatPath t (idxs.get ⟨k, hk⟩)) = some f ∧
            l.getD k ([], default) = (f.header, f.data) := by
  intro idxs
  induction idxs with
  | nil =>
    intro l hl
    simp only [readPrettyLoop] at hl
    cases hl
    exact ⟨rfl, fun k hk => by simp at hk⟩
  | cons i rest ih =>
    intro l hl
    simp only [readPrettyLoop, fits_open] at hl
    cases hfs : fs (formatPath t i) with
    | none => rw [hfs] at hl; simp [exceptBind_error] at hl
    | some f =>
      rw [hfs] at hl
      cases hrec : readPrettyLoop fs t rest with
      | error e =>
        rw [hrec] at hl
        simp only [exceptBind_ok, exceptBind_error] at hl
        cases hl
      | ok tail =>
        rw [hrec] at hl
        simp only [exceptBind_ok] at hl
        cases hl
        obtain ⟨hlen, hget⟩ := ih tail hrec
        refine ⟨by simp [hlen], ?_⟩
        intro k hk
        cases k with
        | zero => exact ⟨f, by simpa using hfs, rfl⟩
        | succ j =>
          obtain ⟨g, hg1, hg2⟩ := hget j (by simpa using hk)
          exact ⟨g, hg1, hg2⟩

theorem readPrettyLoop_missing (fs : FileSystem) (t : Template) :
    ∀ (idxs : List Int) (i : Int), i ∈ idxs → fs (formatPath t i) = none →
      ∃ p, readPrettyLoop fs t idxs = .error (.fileAccessError p) := by
  intro idxs
  induction idxs with
  | nil => intro i hi; simp at hi
  | cons j rest ih =>
    intro i hi hnone
    cases hfs : fs (formatPath t j) with
    | none =>
      exact ⟨formatPath t j, by simp [readPrettyLoop, fits_open, hfs, exceptBind_error]⟩
    | some f =>
      have hir : i ∈ rest := by
        rcases List.mem_cons.mp hi with h | h
        · subst h; rw [hnone] at hfs; cases hfs
        · exact h
      obtain ⟨p, hp⟩ := ih i hir hnone
      refine ⟨p, ?_⟩
      simp [readPrettyLoop, fits_open, hfs, hp, exceptBind_ok, exceptBind_error]

theorem readPrettyLoop_eq_readDarkLoop (fs : FileSystem) (t : Template) :
    ∀ idxs : List Int, readPrettyLoop fs t idxs = readDarkLoop fs t idxs := by
  intro idxs
  induction idxs with
  | nil => rfl
  | cons i rest ih => simp only [readPrettyLoop, readDarkLoop, ih]

theorem calculate_median_cons_ok (a : Arr2) (rest : List Arr2)
    (h : ∀ b ∈ rest, b.rows = a.rows ∧ b.cols = a.cols) :
    calculate_median (a :: rest) =
      .ok ⟨a.rows, a.cols, fun r c =>
        npMedian ((a :: rest).map (fun img => img.pix r c))⟩ := by
  simp only [calculate_median, if_pos h]

theorem calculate_median_mismatch {l : List Arr2} {x y : Arr2}
    (hx : x ∈ l) (hy : y ∈ l) (hxy : ¬(x.rows = y.rows ∧ x.cols = y.cols)) :
    calculate_median l = .error .shapeMismatchError := by
  cases l with
  | nil => simp at hx
  | cons a rest =>
    simp only [calculate_median]
    rw [if_neg]
    intro hall
    have hsh : ∀ b ∈ a :: rest, b.rows = a.rows ∧ b.cols = a.cols := by
      intro b hb
      rcases List.mem_cons.mp hb with h | h
      · subst h; exact ⟨rfl, rfl⟩
      · exact hall b h
    obtain ⟨hx1, hx2⟩ := hsh x hx
    obtain ⟨hy1, hy2⟩ := hsh y hy
    exact hxy ⟨hx1.trans hy1.symm, hx2.trans hy2.symm⟩

theorem calculate_median_replicate {n : Nat} (hn : 0 < n) (r c : Nat) (v : Px) :
    calculate_median (List.replicate n (constArr r c v)) = .ok (constArr r c v) := by
  cases n with
  | zero => omega
  | succ m =>
    rw [List.replicate_succ]
    rw [calculate_median_cons_ok _ _ (fun b hb => by
      simp [List.eq_of_mem_replicate hb])]
    congr 1
    simp only [constArr, Arr2.mk.injEq]
    refine ⟨trivial, trivial, ?_⟩
    funext i j
    rw [show ((⟨r, c, fun _ _ => v⟩ : Arr2) :: List.replicate m ⟨r, c, fun _ _ => v⟩) =
      List.replicate (m + 1) (⟨r, c, fun _ _ => v⟩ : Arr2) from (List.replicate_succ _ _).symm]
    rw [List.map_replicate]
    exact npMedian_replicate (Nat.succ_pos m) v

theorem npSub_sameShape (x y : Arr2) (hr : y.rows = x.rows) (hc : y.cols = x.cols) :
    npSub x y = .ok ⟨x.rows, x.cols, fun i j =>
      x.pix (bcastIndex x.rows i) (bcastIndex x.cols j) -
        y.pix (bcastIndex x.rows i) (bcastIndex x.cols j)⟩ := by
  unfold npSub
  rw [hr, hc, bcastDim_self, bcastDim_self]

theorem npAdd_sameShape (x y : Arr2) (hr : y.rows = x.rows) (hc : y.cols = x.cols) :
    npAdd x y = .ok ⟨x.rows, x.cols, fun i j =>
      x.pix (bcastIndex x.rows i) (bcastIndex x.cols j) +
        y.pix (bcastIndex x.rows i) (bcastIndex x.cols j)⟩ := by
  unfold npAdd
  rw [hr, hc, bcastDim_self, bcastDim_self]

theorem npSub_const (r c : Nat) (x y : Px) :
    npSub (constArr r c x) (constArr r c y) = .ok (constArr r c (x - y)) := by
  rw [npSub_sameShape (constArr r c x) (constArr r c y) rfl rfl]
  rfl

theorem register_sameShape (a b : Arr2) (hr : a.rows = b.rows) (hc : a.cols = b.cols) :
    register a b = .ok (b, constArr b.rows b.cols 1) := by
  simp [register, hr, hc]

/-- The end-to-end scenario of spec section 8: the dark template resolves
to three frames (indices 4–6) of shape 100×100 filled with 10, each
channel template to three frames (indices 0–2) filled with 50; every
other path is absent. -/
def scenarioFS : FileSystem := fun p =>
  if p ∈ (pyRange 4 7).map (formatPath dark_frame_file_template) then
    some ⟨[], constArr 100 100 10⟩
  else if p ∈ (pyRange 0 3).map (formatPath red_file_template) ∨
      p ∈ (pyRange 0 3).map (formatPath blue_file_template) ∨
      p ∈ (pyRange 0 3).map (formatPath visible_file_template) then
    some ⟨[], constArr 100 100 50⟩
  else none

theorem dark_data_scenario : dark_data scenarioFS =
    .ok [constArr 100 100 10, constArr 100 100 10, constArr 100 100 10] := rfl

theorem red_data_scenario : red_data scenarioFS =
    .ok [constArr 100 100 50, constArr 100 100 50, constArr 100 100 50] := rfl

theorem blue_data_scenario : blue_data scenarioFS =
    .ok [constArr 100 100 50, constArr 100 100 50, constArr 100 100 50] := rfl

theorem visible_data_scenario : visible_data scenarioFS =
    .ok [constArr 100 100 50, constArr 100 100 50, constArr 100 100 50] := rfl

theorem median_dark_scenario : median_dark scenarioFS = .ok (constArr 100 100 10) := by
  show dark_data scenarioFS >>= calculate_median = _
  rw [dark_data_scenario, exceptBind_ok,
    show [constArr 100 100 (10:Px), constArr 100 100 10, constArr 100 100 10] =
      List.replicate 3 (constArr 100 100 10) from rfl]
  exact calculate_median_replicate (by omega) 100 100 10

theorem median_red_scenario : median_red scenarioFS = .ok (constArr 100 100 50) := by
  show red_data scenarioFS >>= calculate_median = _
  rw [red_data_scenario, exceptBind_ok,
    show [constArr 100 100 (50:Px), constArr 100 100 50, constArr 100 100 50] =
      List.replicate 3 (constArr 100 100 50) from rfl]
  exact calculate_median_replicate (by omega) 100 100 50

theorem median_blue_scenario : median_blue scenarioFS = .ok (constArr 100 100 50) := by
  show blue_data scenarioFS >>= calculate_median = _
  rw [blue_data_scenario, exceptBind_ok,
    show [constArr 100 100 (50:Px), constArr 100 100 50, constArr 100 100 50] =
      List.replicate 3 (constArr 100 100 50) from rfl]
  exact calculate_median_replicate (by omega) 100 100 50

theorem median_visible_scenario : median_visible scenarioFS = .ok (constArr 100 100 50) := by
  show visible_data scenarioFS >>= calculate_median = _
  rw [visible_data_scenario, exceptBind_ok,
    show [constArr 100 100 (50:Px), constArr 100 100 50, constArr 100 100 50] =
      List.replicate 3 (constArr 100 100 50) from rfl]
  exact calculate_median_replicate (by omega) 100 100 50

theorem subtracted_red_scenario :
    subtracted_red scenarioFS = .ok (constArr 100 100 40) := by
  simp only [subtracted_red, median_dark_scenario, median_red_scenario, exceptBind_ok]
  rw [subtract_median_dark_from_pretty, npSub_const]
  norm_num

theorem subtracted_blue_scenario :
    subtracted_blue scenarioFS = .ok (constArr 100 100 40) := by
  simp only [subtracted_blue, median_dark_scenario, median_blue_scenario, exceptBind_ok]
  rw [subtract_median_dark_from_pretty, npSub_const]
  norm_num

theorem subtracted_visible_scenario :
    subtracted_visible scenarioFS = .ok (constArr 100 100 40) := by
  simp only [subtracted_visible, median_dark_scenario, median_visible_scenario, exceptBind_ok]
  rw [subtract_median_dark_from_pretty, npSub_const]
  norm_num

theorem calibrated_images_scenario :
    calibrated_images scenarioFS =
      .ok [constArr 100 100 40, constArr 100 100 40, constArr 100 100 40] := by
  simp only [calibrated_images, subtracted_visible_scenario, subtracted_blue_scenario,
    subtracted_red_scenario, exceptBind_ok]
  rfl

theorem aligned_blue_fp_scenario :
    aligned_blue_fp scenarioFS = .ok (constArr 100 100 40, constArr 100 100 1) := by
  simp only [aligned_blue_fp, calibrated_images_scenario, exceptBind_ok]
  show register (constArr 100 100 40) (constArr 100 100 40) = _
  exact register_sameShape _ _ rfl rfl

theorem aligned_red_fp_scenario :
    aligned_red_fp scenarioFS = .ok (constArr 100 100 40, constArr 100 100 1) := by
  simp only [aligned_red_fp, calibrated_images_scenario, exceptBind_ok]
  show register (constArr 100 100 40) (constArr 100 100 40) = _
  exact register_sameShape _ _ rfl rfl

theorem written_files_scenario :
    written_files scenarioFS = .ok [("aligned_blue.fits", constArr 100 100 40),
      ("aligned_red.fits", constArr 100 100 40),
      ("aligned_green.fits", constArr 100 100 40)] := by
  simp only [written_files, aligned_blue, aligned_red, aligned_blue_fp_scenario,
    aligned_red_fp_scenario, calibrated_images_scenario, exceptMap_ok, exceptBind_ok]
  rfl

/-- The completely empty file system: every path is missing. -/
def emptyFS : FileSystem := fun _ => none

/-- Holds exactly when a loader outcome is a FileAccessError. -/
def isFileAccessError {α : Type} : Except PipelineError α → Bool
  | .error (.fileAccessError _) => true
  | _ => false

/-- The two loader bodies are duplicated verbatim in the source; the reads
agree on every template, file system and range. -/
theorem read_pretty_eq_read_dark (fs : FileSystem) (t : Template) (s e : Int) :
    read_pretty_images fs t s e = read_dark_frames fs t s e :=
  readPrettyLoop_eq_readDarkLoop fs t (pyRange s (e + 1))

/-- C3: over an inclusive index range [s, e] with s ≤ e, a successful
Frame Loader run (either loader) returns exactly (e − s + 1)
(metadata, array) entries, the k-th entry holding the header and data of
the file at frame index s + k — i.e. ascending frame-index order. -/
theorem loader_count_and_order (fs : FileSystem) (t : Template) (s e : Int)
    (hse : s ≤ e) :
    (∀ l, read_pretty_images fs t s e = .ok l →
      l.length = (e - s + 1).toNat ∧
        ∀ k, k < l.length → ∃ f,
          fs (formatPath t (s + (k : Int))) = some f ∧
            l.getD k ([], default) = (f.header, f.data)) ∧
    (∀ l, read_dark_frames fs t s e = .ok l →
      l.length = (e - s + 1).toNat ∧
        ∀ k, k < l.length → ∃ f,
          fs (formatPath t (s + (k : Int))) = some f ∧
            l.getD k ([], default) = (f.header, f.data)) := by
  have main : ∀ l, read_pretty_images fs t s e = .ok l →
      l.length = (e - s + 1).toNat ∧
        ∀ k, k < l.length → ∃ f,
          fs (formatPath t (s + (k : Int))) = some f ∧
            l.getD k ([], default) = (f.header, f.data) := by
    intro l hl
    obtain ⟨hlen, hget⟩ := readPrettyLoop_ok_spec fs t (pyRange s (e + 1)) l hl
    have hplen : (pyRange s (e + 1)).length = (e + 1 - s).toNat :=
      pyRange_length s (e + 1)
    constructor
    · omega
    · intro k hk
      have hk2 : k < (pyRange s (e + 1)).length := by omega
      obtain ⟨f, hf1, hf2⟩ := hget k hk2
      rw [pyRange_get s (e + 1) k hk2] at hf1
      exact ⟨f, hf1, hf2⟩
  refine ⟨main, fun l hl => main l ?_⟩
  rw [read_pretty_eq_read_dark]
  exact hl

/-- Witness for C3: on the spec-section-8 scenario the dark loader over
[4, 6] yields exactly 3 entries. -/
theorem loader_count_and_order_witness :
    (4:Int) ≤ 6 ∧
      ([(([] : Header), constArr 100 100 10), ([], constArr 100 100 10),
        ([], constArr 100 100 10)] : List (Header × Arr2)).length =
        ((6:Int) - 4 + 1).toNat :=
  ⟨by decide,
    ((loader_count_and_order scenarioFS dark_frame_file_template 4 6
      (by decide)).2
      [(([] : Header), constArr 100 100 10), ([], constArr 100 100 10),
        ([], constArr 100 100 10)] rfl).1⟩

/-- C6: when any file of the inclusive range [s, e] is missing or
unreadable, either loader fails with a FileAccessError and no partial
list of the frames read before the failure is returned — the read is
all-or-nothing. -/
theorem loader_all_or_nothing (fs : FileSystem) (t : Template) (s e : Int)
    (hmiss : ∃ i, s ≤ i ∧ i ≤ e ∧ fs (formatPath t i) = none) :
    isFileAccessError (read_pretty_images fs t s e) = true ∧
      (∀ l, read_pretty_images fs t s e ≠ .ok l) ∧
      isFileAccessError (read_dark_frames fs t s e) = true ∧
      (∀ l, read_dark_frames fs t s e ≠ .ok l) := by
  obtain ⟨i, his, hie, hnone⟩ := hmiss
  have hmem : i ∈ pyRange s (e + 1) := mem_pyRange.mpr ⟨his, by omega⟩
  obtain ⟨p, hp⟩ := readPrettyLoop_missing fs t (pyRange s (e + 1)) i hmem hnone
  have h1 : read_pretty_images fs t s e = .error (.fileAccessError p) := hp
  have h2 : read_dark_frames fs t s e = .error (.fileAccessError p) := by
    rw [← read_pretty_eq_read_dark]; exact hp
  refine ⟨by rw [h1]; rfl, ?_, by rw [h2]; rfl, ?_⟩
  · intro l hl; rw [h1] at hl; cases hl
  · intro l hl; rw [h2] at hl; cases hl

/-- Witness for C6: with every file missing, the loaders over [0, 0] fail
with a FileAccessError. -/
theorem loader_all_or_nothing_witness :
    isFileAccessError (read_pretty_images emptyFS dark_frame_file_template 0 0) = true ∧
      isFileAccessError (read_dark_frames emptyFS dark_frame_file_template 0 0) = true :=
  ⟨(loader_all_or_nothing emptyFS dark_frame_file_template 0 0
      ⟨0, by decide, by decide, rfl⟩).1,
    (loader_all_or_nothing emptyFS dark_frame_file_template 0 0
      ⟨0, by decide, by decide, rfl⟩).2.2.1⟩

/-- C8: for a reversed range (start_index > end_index) either loader
succeeds with the empty list — the Python range is empty, so no file is
even consulted (the result is `ok []` for every file system, including
the empty one). -/
theorem loader_empty_range (fs : FileSystem) (t : Template) (s e : Int)
    (h : e < s) :
    read_pretty_images fs t s e = .ok [] ∧ read_dark_frames fs t s e = .ok [] := by
  have hnil : pyRange s (e + 1) = [] := by
    unfold pyRange
    rw [show ((e + 1) - s).toNat = 0 from by omega]
    rfl
  constructor
  · show readPrettyLoop fs t (pyRange s (e + 1)) = .ok []
    rw [hnil]; rfl
  · show readDarkLoop fs t (pyRange s (e + 1)) = .ok []
    rw [hnil]; rfl

/-- Witness for C8: range [1, 0] on the empty file system succeeds with
the empty list. -/
theorem loader_empty_range_witness :
    read_pretty_images emptyFS red_file_template 1 0 = .ok [] ∧
      read_dark_frames emptyFS red_file_template 1 0 = .ok [] :=
  loader_empty_range emptyFS red_file_template 1 0 (by decide)

/-- C9: the two loader functions are extensionally equal — on every file
system, template and index range they return identical results, succeeding
and failing identically. -/
theorem loaders_extensionally_equal :
    ∀ (fs : FileSystem) (t : Template) (s e : Int),
      read_pretty_images fs t s e = read_dark_frames fs t s e :=
  fun fs t s e => read_pretty_eq_read_dark fs t s e

/-- Holds exactly when a fallible operation produced a value. -/
def isOkResult {α : Type} : Except PipelineError α → Bool
  | .ok _ => true
  | .error _ => false

/-- Shape of a successfully produced array (degenerate for errors). -/
def okShape (x : Except PipelineError Arr2) : Nat × Nat :=
  match x with
  | .ok m => (m.rows, m.cols)
  | .error _ => (0, 0)

/-- Two shapes broadcast against each other in the numpy sense. -/
def bcastCompatible (x y : Arr2) : Prop :=
  (bcastDim x.rows y.rows).isSome = true ∧ (bcastDim x.cols y.cols).isSome = true

instance (x y : Arr2) : Decidable (bcastCompatible x y) := by
  unfold bcastCompatible; infer_instance

theorem npAdd_const (r c : Nat) (x y : Px) :
    npAdd (constArr r c x) (constArr r c y) = .ok (constArr r c (x + y)) := by
  rw [npAdd_sameShape (constArr r c x) (constArr r c y) rfl rfl]
  rfl

/-- C4: on every non-empty list of equal-shaped arrays the Median Reducer
succeeds with an array of the common shape, and on a constant-valued
sequence it returns exactly that constant array. -/
theorem median_reducer_shape_and_const :
    (∀ (a : Arr2) (rest : List Arr2),
      (∀ b ∈ rest, b.rows = a.rows ∧ b.cols = a.cols) →
      isOkResult (calculate_median (a :: rest)) = true ∧
        okShape (calculate_median (a :: rest)) = (a.rows, a.cols)) ∧
    (∀ (n r c : Nat) (v : Px), 0 < n →
      calculate_median (List.replicate n (constArr r c v)) = .ok (constArr r c v)) := by
  constructor
  · intro a rest h
    rw [calculate_median_cons_ok a rest h]
    exact ⟨rfl, rfl⟩
  · intro n r c v hn
    exact calculate_median_replicate hn r c v

/-- Witness for C4: a two-frame equal-shaped stack succeeds with shape
(2, 3); a constant stack of three 5-valued 2×2 frames reduces to the
constant 5 array. -/
theorem median_reducer_shape_and_const_witness :
    (isOkResult (calculate_median (constArr 2 3 5 :: [constArr 2 3 7])) = true ∧
      okShape (calculate_median (constArr 2 3 5 :: [constArr 2 3 7])) =
        ((constArr 2 3 5).rows, (constArr 2 3 5).cols)) ∧
      calculate_median (List.replicate 3 (constArr 2 2 5)) = .ok (constArr 2 2 5) :=
  ⟨median_reducer_shape_and_const.1 (constArr 2 3 5) [constArr 2 3 7]
      (fun b hb => by rw [List.mem_singleton.mp hb]; exact ⟨rfl, rfl⟩),
    median_reducer_shape_and_const.2 3 2 2 5 (by decide)⟩

/-- Counterexample to C5 as stated: the Dark Subtractor applied to the
differently shaped pair (1×1 dark, 2×1 science) raises nothing — numpy
broadcasting produces an output value. -/
theorem shape_mismatch_subtractor_cex :
    isOkResult (subtract_median_dark_from_pretty (constArr 1 1 1) (constArr 2 1 5)) = true ∧
      (constArr 1 1 1).rows ≠ (constArr 2 1 5).rows := by
  constructor
  · rfl
  · decide

/-- C5 (amended): the Median Reducer raises ShapeMismatchError on any
list containing two differently shaped arrays, and the Dark Subtractor
raises ShapeMismatchError exactly when the two shapes are not numpy
broadcast-compatible; broadcast-compatible differing shapes instead
produce a broadcast difference. -/
theorem shape_mismatch_errors (l : List Arr2) (x y : Arr2)
    (hx : x ∈ l) (hy : y ∈ l) (hxy : ¬(x.rows = y.rows ∧ x.cols = y.cols)) :
    calculate_median l = .error .shapeMismatchError ∧
      ∀ d p : Arr2,
        (subtract_median_dark_from_pretty d p = .error .shapeMismatchError ↔
          ¬ bcastCompatible p d) := by
  refine ⟨calculate_median_mismatch hx hy hxy, ?_⟩
  intro d p
  unfold subtract_median_dark_from_pretty npSub bcastCompatible
  cases hr : bcastDim p.rows d.rows <;> cases hc : bcastDim p.cols d.cols <;>
    simp [hr, hc]

/-- Witness for C5: the reducer errors on a (1,1)/(2,2) stack, and the
subtractor errors on the non-broadcastable (2,2)/(3,3) pair. -/
theorem shape_mismatch_errors_witness :
    calculate_median [constArr 1 1 0, constArr 2 2 0] = .error .shapeMismatchError ∧
      subtract_median_dark_from_pretty (constArr 2 2 0) (constArr 3 3 0) =
        .error .shapeMismatchError :=
  have h := shape_mismatch_errors [constArr 1 1 0, constArr 2 2 0]
    (constArr 1 1 0) (constArr 2 2 0) (List.mem_cons_self _ _)
    (List.mem_cons_of_mem _ (List.mem_cons_self _ _)) (by decide)
  ⟨h.1, (h.2 (constArr 2 2 0) (constArr 3 3 0)).mpr (by decide)⟩

/-- Counterexample to C1 as stated: with the science frame as first
argument (A = all-ones 1×1) and the dark as second (B = all-zeros 1×1),
Subtractor(A, B) + B is the all-(−1) array, not A — the source function
takes the dark frame first, so the claimed round-trip fails. -/
theorem subtractor_roundtrip_cex :
    ¬ exEqv (exAdd (subtract_median_dark_from_pretty (constArr 1 1 1) (constArr 1 1 0))
        (.ok (constArr 1 1 0))) (constArr 1 1 1) := by
  have h1 : subtract_median_dark_from_pretty (constArr 1 1 1) (constArr 1 1 0) =
      .ok (constArr 1 1 (0 - 1)) := npSub_const 1 1 0 1
  have h2 : exAdd (subtract_median_dark_from_pretty (constArr 1 1 1) (constArr 1 1 0))
      (.ok (constArr 1 1 0)) = .ok (constArr 1 1 (0 - 1 + 0)) := by
    simp only [exAdd, h1, exceptBind_ok]
    exact npAdd_const 1 1 (0 - 1) 0
  intro h
  rw [h2] at h
  have h3 : Arr2.eqv (constArr 1 1 (0 - 1 + 0)) (constArr 1 1 1) := h
  have h4 : (0 - 1 + 0 : Px) = 1 := h3.2.2 0 (by decide) 0 (by decide)
  norm_num at h4

/-- C1 (amended): the Dark Subtractor takes the dark reference as its
FIRST argument and the science reference as its second; for equal-shaped
dark D and science S, Subtractor(D, S) + D == S exactly. -/
theorem subtractor_roundtrip_dark_first (D S : Arr2)
    (hr : D.rows = S.rows) (hc : D.cols = S.cols) :
    exEqv (exAdd (subtract_median_dark_from_pretty D S) (.ok D)) S := by
  have h1 := npSub_sameShape S D hr hc
  show exEqv (exAdd (npSub S D) (.ok D)) S
  rw [h1]
  simp only [exAdd, exceptBind_ok]
  rw [npAdd_sameShape ⟨S.rows, S.cols, fun i j =>
      S.pix (bcastIndex S.rows i) (bcastIndex S.cols j) -
        D.pix (bcastIndex S.rows i) (bcastIndex S.cols j)⟩ D hr hc]
  show Arr2.eqv _ S
  refine ⟨rfl, rfl, ?_⟩
  intro r hrlt c hclt
  show (fun i j => S.pix (bcastIndex S.rows i) (bcastIndex S.cols j) -
      D.pix (bcastIndex S.rows i) (bcastIndex S.cols j))
        (bcastIndex S.rows r) (bcastIndex S.cols c) +
      D.pix (bcastIndex S.rows r) (bcastIndex S.cols c) = S.pix r c
  simp only [bcastIndex_of_lt hrlt, bcastIndex_of_lt hclt]
  ring

/-- Witness for C1 (amended): at 2×2 constants, subtracting dark 3 from
science 7 and adding the dark back returns the science array. -/
theorem subtractor_roundtrip_dark_first_witness :
    exEqv (exAdd (subtract_median_dark_from_pretty (constArr 2 2 3) (constArr 2 2 7))
      (.ok (constArr 2 2 3))) (constArr 2 2 7) :=
  subtractor_roundtrip_dark_first (constArr 2 2 3) (constArr 2 2 7) rfl rfl

/-- C2 (register modelled from the spec, section 4.4): in the alignment
stage each `register` call passes the visible calibrated frame as the
reference (first argument) and the channel being aligned as the target
(second argument); consequently, whenever the calibrated channels share
the visible frame's shape, the aligned-blue output is the blue calibrated
array carried onto the visible grid and the aligned-red output is the red
calibrated array carried onto the visible grid. -/
theorem alignment_channels_onto_visible (fs : FileSystem) (v b r : Arr2)
    (hv : subtracted_visible fs = .ok v) (hb : subtracted_blue fs = .ok b)
    (hre : subtracted_red fs = .ok r)
    (hbr : v.rows = b.rows) (hbc : v.cols = b.cols)
    (hrr : v.rows = r.rows) (hrc : v.cols = r.cols) :
    aligned_blue_fp fs = register v b ∧ aligned_red_fp fs = register v r ∧
      aligned_blue fs = .ok b ∧ aligned_red fs = .ok r := by
  have hcal : calibrated_images fs = .ok [v, b, r] := by
    simp only [calibrated_images, hv, hb, hre, exceptBind_ok]
    rfl
  have h1 : aligned_blue_fp fs = register v b := by
    simp only [aligned_blue_fp, hcal, exceptBind_ok]
    rfl
  have h2 : aligned_red_fp fs = register v r := by
    simp only [aligned_red_fp, hcal, exceptBind_ok]
    rfl
  refine ⟨h1, h2, ?_, ?_⟩
  · rw [aligned_blue, h1, register_sameShape v b hbr hbc, exceptMap_ok]
  · rw [aligned_red, h2, register_sameShape v r hrr hrc, exceptMap_ok]

/-- Witness for C2: on the constant scenario, both aligned outputs are the
corresponding channel's 40-valued calibrated array. -/
theorem alignment_channels_onto_visible_witness :
    aligned_blue scenarioFS = .ok (constArr 100 100 40) ∧
      aligned_red scenarioFS = .ok (constArr 100 100 40) :=
  have h := alignment_channels_onto_visible scenarioFS
    (constArr 100 100 40) (constArr 100 100 40) (constArr 100 100 40)
    subtracted_visible_scenario subtracted_blue_scenario subtracted_red_scenario
    rfl rfl rfl rfl
  ⟨h.2.2.1, h.2.2.2⟩

/-- C7: the end-to-end constant scenario of spec section 8 — three
100×100 dark frames of value 10 and three frames of value 50 per channel:
the median dark is the constant 10 array, each channel median the
constant 50 array, each dark-subtracted channel the constant 40 array;
aligning the identical-shaped constant arrays leaves 40-valued arrays
with fully valid (all-ones) footprint masks, and three files are written,
each holding the 100×100 constant 40 array. -/
theorem end_to_end_constant_scenario :
    median_dark scenarioFS = .ok (constArr 100 100 10) ∧
    median_red scenarioFS = .ok (constArr 100 100 50) ∧
    median_blue scenarioFS = .ok (constArr 100 100 50) ∧
    median_visible scenarioFS = .ok (constArr 100 100 50) ∧
    subtracted_red scenarioFS = .ok (constArr 100 100 40) ∧
    subtracted_blue scenarioFS = .ok (constArr 100 100 40) ∧
    subtracted_visible scenarioFS = .ok (constArr 100 100 40) ∧
    aligned_blue scenarioFS = .ok (constArr 100 100 40) ∧
    aligned_red scenarioFS = .ok (constArr 100 100 40) ∧
    footprint_blue scenarioFS = .ok (constArr 100 100 1) ∧
    footprint_red scenarioFS = .ok (constArr 100 100 1) ∧
    written_files scenarioFS = .ok [("aligned_blue.fits", constArr 100 100 40),
      ("aligned_red.fits", constArr 100 100 40),
      ("aligned_green.fits", constArr 100 100 40)] :=
  ⟨median_dark_scenario, median_red_scenario, median_blue_scenario,
    median_visible_scenario, subtracted_red_scenario, subtracted_blue_scenario,
    subtracted_visible_scenario,
    by rw [aligned_blue, aligned_blue_fp_scenario, exceptMap_ok],
    by rw [aligned_red, aligned_red_fp_scenario, exceptMap_ok],
    by rw [footprint_blue, aligned_blue_fp_scenario, exceptMap_ok],
    by rw [footprint_red, aligned_red_fp_scenario, exceptMap_ok],
    written_files_scenario⟩

/-- C10: whenever the pipeline's output stage succeeds, the third written
file is `aligned_green.fits` and its content is exactly the Subtractor's
visible-channel output — the reference channel passes through the
alignment stage unchanged, with no transform or mask applied. -/
theorem green_output_passthrough (fs : FileSystem) (out : List (String × Arr2))
    (h : written_files fs = .ok out) :
    out.length = 3 ∧ (out.getD 2 ("", default)).1 = "aligned_green.fits" ∧
      subtracted_visible fs = .ok (out.getD 2 ("", default)).2 := by
  cases hsv : subtracted_visible fs with
  | error e =>
    exfalso
    simp only [written_files, aligned_blue, aligned_blue_fp, calibrated_images,
      hsv, exceptBind_error, exceptMap_error] at h
    cases h
  | ok v =>
    cases hsb : subtracted_blue fs with
    | error e =>
      exfalso
      simp only [written_files, aligned_blue, aligned_blue_fp, calibrated_images,
        hsv, hsb, exceptBind_ok, exceptBind_error, exceptMap_error] at h
      cases h
    | ok b =>
      cases hsr : subtracted_red fs with
      | error e =>
        exfalso
        simp only [written_files, aligned_blue, aligned_blue_fp, calibrated_images,
          hsv, hsb, hsr, exceptBind_ok, exceptBind_error, exceptMap_error] at h
        cases h
      | ok r =>
        have hcal : calibrated_images fs = .ok [v, b, r] := by
          simp only [calibrated_images, hsv, hsb, hsr, exceptBind_ok]
          rfl
        cases hreg1 : register v b with
        | error e =>
          exfalso
          simp only [written_files, aligned_blue, aligned_blue_fp, hcal,
            exceptBind_ok, exceptBind_error, exceptMap_error] at h
          rw [show register ([v, b, r].getD 0 default)
              ([v, b, r].getD 1 default) = register v b from rfl, hreg1] at h
          cases h
        | ok ab =>
          cases hreg2 : register v r with
          | error e =>
            exfalso
            simp only [written_files, aligned_blue, aligned_red, aligned_blue_fp,
              aligned_red_fp, hcal, exceptBind_ok, exceptBind_error,
              exceptMap_error, exceptMap_ok] at h
            rw [show register ([v, b, r].getD 0 default)
                ([v, b, r].getD 1 default) = register v b from rfl, hreg1,
              show register ([v, b, r].getD 0 default)
                ([v, b, r].getD 2 default) = register v r from rfl, hreg2] at h
            simp only [exceptMap_ok, exceptMap_error, exceptBind_error,
              exceptBind_ok] at h
            cases h
          | ok ar =>
            have hab : aligned_blue fs = .ok ab.1 := by
              rw [aligned_blue, aligned_blue_fp, hcal, exceptBind_ok,
                show register ([v, b, r].getD 0 default)
                  ([v, b, r].getD 1 default) = register v b from rfl, hreg1,
                exceptMap_ok]
            have har : aligned_red fs = .ok ar.1 := by
              rw [aligned_red, aligned_red_fp, hcal, exceptBind_ok,
                show register ([v, b, r].getD 0 default)
                  ([v, b, r].getD 2 default) = register v r from rfl, hreg2,
                exceptMap_ok]
            rw [written_files, hab, har, hcal] at h
            simp only [exceptBind_ok] at h
            cases h
            exact ⟨rfl, rfl, rfl⟩

/-- Witness for C10: on the constant scenario, the third written file is
`aligned_green.fits` holding exactly the Subtractor's visible output. -/
theorem green_output_passthrough_witness :
    ([("aligned_blue.fits", constArr 100 100 40),
      ("aligned_red.fits", constArr 100 100 40),
      ("aligned_green.fits", constArr 100 100 40)] : List (String × Arr2)).length = 3 ∧
    (([("aligned_blue.fits", constArr 100 100 40),
      ("aligned_red.fits", constArr 100 100 40),
      ("aligned_green.fits", constArr 100 100 40)] : List (String × Arr2)).getD 2
        ("", default)).1 = "aligned_green.fits" ∧
      subtracted_visible scenarioFS =
        .ok (([("aligned_blue.fits", constArr 100 100 40),
          ("aligned_red.fits", constArr 100 100 40),
          ("aligned_green.fits", constArr 100 100 40)] : List (String × Arr2)).getD 2
            ("", default)).2 :=
  green_output_passthrough scenarioFS _ written_files_scenario
